import Mathlib

/-!
A shallow embedding of `src/flight_booking.py`, a command-line flight
search-and-booking client, together with theorems settling the frozen
claims about its specification.

Modelling conventions:
* Python dict-shaped flight records are embedded as the `Flight` structure
  (the fields the program reads: `price`, `duration.total`, display fields
  and the booking token); numeric JSON values are embedded as `Int`.
* Fallible Python code (dict indexing that can raise `KeyError` or
  `TypeError`, list indexing that can raise `IndexError`) is embedded with
  `Option` / `Except`: `none` / `.error` marks the raising execution.
* `requests` transport outcomes are embedded as `NetResult`:
  a completed HTTP exchange `ok (status, body)`, a connection error, or a
  timeout.  `Response.raise_for_status` raises `HTTPError` exactly for
  status codes in 400..599, which the embedding tests explicitly.
* Python truthiness of the values the program branches on is embedded by
  dedicated functions (`truthyOptInt` for the optional `returning` integer,
  emptiness tests for lists).
* `print` output is collected as a `List String`; `sys.exit(1)` inside the
  `handling_request` decorator becomes the `fatal` outcome, an uncaught
  Python exception becomes `crash`, and running out of scripted interactive
  answers becomes `blocked` (the real loop would keep prompting).
-/

namespace FlightBooking

/-- The `duration` sub-dictionary of a flight record; the program reads
`flight['duration']['total']`. -/
structure Duration where
  total : Int
deriving Repr, DecidableEq

/-- One flight record returned by the search endpoint, with the fields the
program reads. -/
structure Flight where
  flyFrom : String
  flyTo : String
  price : Int
  duration : Duration
  fly_duration : String
  return_duration : String
  booking_token : String
deriving Repr, DecidableEq

/-- The parsed argparse namespace: the fields `InputHandler` installs.
`returning` is `none` when `--returning` was not supplied.  The Python
attribute `to` is spelled `to_` here because `to` is a Lean keyword. -/
structure Args where
  date : String
  flight_from : String
  to_ : String
  one_way : Bool
  returning : Option Int
  cheapest : Bool
  fastest : Bool
  direct : Bool
  bags : Int
deriving Repr, DecidableEq

/-- Python truthiness of the optional integer `args.returning`:
`None` is falsy and the integer `0` is falsy. -/
def truthyOptInt : Option Int → Bool
  | none => false
  | some n => !(n == 0)

/-- What argparse itself guarantees about the raw namespace before the
`InputHandler.__init__` fixups run: `--cheapest` and `--fastest` are a
mutually exclusive pair of `store_true` flags (both default `False`), so
they are never both true; and `--one_way` is a `store_true` flag with
`default=True`, so its parsed value is `True` whether or not it was passed
(passing it together with `--returning` is rejected by the parser, but the
default still applies when only `--returning` is given). -/
def ParserAccepts (a : Args) : Prop :=
  a.one_way = true ∧ ¬(a.cheapest = true ∧ a.fastest = true)

/-- The first fixup at the end of `InputHandler.__init__`:
`if not self.args.fastest: self.args.cheapest = True`. -/
def resolvePriority (a : Args) : Args :=
  if !a.fastest then { a with cheapest := true } else a

/-- The second fixup: `if not self.args.returning: self.args.one_way = True`
(Python truthiness of the optional integer). -/
def resolveTrip (a : Args) : Args :=
  if !(truthyOptInt a.returning) then { a with one_way := true } else a

/-- Both fixups of `InputHandler.__init__`, in source order. -/
def resolve (a : Args) : Args := resolveTrip (resolvePriority a)

theorem resolvePriority_cheapest (a : Args) :
    (resolvePriority a).cheapest = (a.cheapest || !a.fastest) := by
  unfold resolvePriority
  cases hf : a.fastest <;> simp [hf]

theorem resolvePriority_fastest (a : Args) : (resolvePriority a).fastest = a.fastest := by
  unfold resolvePriority
  split <;> rfl

theorem resolvePriority_returning (a : Args) :
    (resolvePriority a).returning = a.returning := by
  unfold resolvePriority
  split <;> rfl

theorem resolvePriority_one_way (a : Args) : (resolvePriority a).one_way = a.one_way := by
  unfold resolvePriority
  split <;> rfl

theorem resolveTrip_cheapest (a : Args) : (resolveTrip a).cheapest = a.cheapest := by
  unfold resolveTrip
  split <;> rfl

theorem resolveTrip_fastest (a : Args) : (resolveTrip a).fastest = a.fastest := by
  unfold resolveTrip
  split <;> rfl

theorem resolveTrip_returning (a : Args) : (resolveTrip a).returning = a.returning := by
  unfold resolveTrip
  split <;> rfl

theorem resolveTrip_one_way (a : Args) :
    (resolveTrip a).one_way = (a.one_way || !truthyOptInt a.returning) := by
  unfold resolveTrip
  by_cases h : truthyOptInt a.returning <;> simp [h]

theorem resolve_cheapest (a : Args) :
    (resolve a).cheapest = (a.cheapest || !a.fastest) := by
  unfold resolve
  rw [resolveTrip_cheapest, resolvePriority_cheapest]

theorem resolve_fastest (a : Args) : (resolve a).fastest = a.fastest := by
  unfold resolve
  rw [resolveTrip_fastest, resolvePriority_fastest]

theorem resolve_returning (a : Args) : (resolve a).returning = a.returning := by
  unfold resolve
  rw [resolveTrip_returning, resolvePriority_returning]

theorem resolve_one_way (a : Args) :
    (resolve a).one_way = (a.one_way || !truthyOptInt a.returning) := by
  unfold resolve
  rw [resolveTrip_one_way, resolvePriority_one_way, resolvePriority_returning]

/-- The query-filter dictionary built by `FlightBooker.set_filter`. -/
structure SearchFilter where
  flyFrom : String
  to_ : String
  dateFrom : String
  dateTo : String
  partner : String
  directFlights : Nat
  oneforcity : Nat
  typeFlight : String
  daysInDestinationFrom : Option Int
  daysInDestinationTo : Option Int
deriving Repr, DecidableEq

/-- `FlightBooker.set_filter`: the deterministic mapping from the parsed
input configuration to the search-query filter.  `typeFlight` is
`'round' if self.input_config.returning else 'oneway'` — Python
truthiness of the optional integer. -/
def set_filter (cfg : Args) : SearchFilter :=
  { flyFrom := cfg.flight_from
    to_ := cfg.to_
    dateFrom := cfg.date
    dateTo := cfg.date
    partner := "picky"
    directFlights := if cfg.direct then 1 else 0
    oneforcity := if cfg.cheapest then 1 else 0
    typeFlight := if truthyOptInt cfg.returning then "round" else "oneway"
    daysInDestinationFrom := cfg.returning
    daysInDestinationTo := cfg.returning }

/-! ## Selection: `find_cheapest_flight`, `find_fastest_flight`, `search_flight` -/

/-- The loop body shared by `find_cheapest_flight` and
`find_fastest_flight`: running best initialised by the caller to the first
element, then a left-to-right pass updating the best only on a strict
decrease of the key (`if flight_price < min_price`). -/
def runMinBy (key : Flight → Int) : Flight → List Flight → Flight
  | best, [] => best
  | best, f :: rest =>
    if key f < key best then runMinBy key f rest else runMinBy key best rest

theorem runMinBy_nil (key : Flight → Int) (b : Flight) : runMinBy key b [] = b := rfl

theorem runMinBy_cons (key : Flight → Int) (b f : Flight) (rest : List Flight) :
    runMinBy key b (f :: rest) =
      if key f < key b then runMinBy key f rest else runMinBy key b rest := rfl

/-- `FlightBooker.find_cheapest_flight`: first element as the running best,
then the strict-decrease scan over the tail keyed on `price`.  On the empty
list the Python code raises `IndexError` at `flights_data[0]`; the
embedding returns `none` there. -/
def find_cheapest_flight : List Flight → Option Flight
  | [] => none
  | f :: rest => some (runMinBy (fun g => g.price) f rest)

/-- `FlightBooker.find_fastest_flight`: the same scan keyed on
`duration.total`. -/
def find_fastest_flight : List Flight → Option Flight
  | [] => none
  | f :: rest => some (runMinBy (fun g => g.duration.total) f rest)

/-- `FlightBooker.search_flight`: a singleton list short-circuits to its
only element; otherwise the scan selected by the `cheapest` flag runs. -/
def search_flight (cheapest : Bool) (flights_data : List Flight) : Option Flight :=
  if flights_data.length = 1 then flights_data.head?
  else if cheapest then find_cheapest_flight flights_data
  else find_fastest_flight flights_data

/-- The minimum of `key` over `b :: l`, phrased as the fold the scan
computes. -/
def minKeyFrom (key : Flight → Int) (b : Flight) (l : List Flight) : Int :=
  l.foldl (fun m g => min m (key g)) (key b)

theorem minKeyFrom_cons (key : Flight → Int) (b f : Flight) (l : List Flight) :
    minKeyFrom key b (f :: l) =
      if key f < key b then minKeyFrom key f l else minKeyFrom key b l := by
  unfold minKeyFrom
  simp only [List.foldl_cons]
  split
  · rw [min_eq_right (le_of_lt (by assumption))]
  · rw [min_eq_left (le_of_not_lt (by assumption))]

theorem key_runMinBy (key : Flight → Int) (l : List Flight) (b : Flight) :
    key (runMinBy key b l) = minKeyFrom key b l := by
  induction l generalizing b with
  | nil => rfl
  | cons f rest ih =>
    rw [minKeyFrom_cons, runMinBy_cons]
    split
    · exact ih f
    · exact ih b

theorem minKeyFrom_le (key : Flight → Int) (l : List Flight) (b : Flight) :
    minKeyFrom key b l ≤ key b ∧ ∀ g ∈ l, minKeyFrom key b l ≤ key g := by
  induction l generalizing b with
  | nil => simp [minKeyFrom]
  | cons f rest ih =>
    rw [minKeyFrom_cons]
    split
    · refine ⟨le_trans (ih f).1 (le_of_lt (by assumption)), ?_⟩
      intro g hg
      rcases List.mem_cons.mp hg with h | h
      · exact h ▸ (ih f).1
      · exact (ih f).2 g h
    · refine ⟨(ih b).1, ?_⟩
      intro g hg
      rcases List.mem_cons.mp hg with h | h
      · exact h ▸ le_trans (ih b).1 (le_of_not_lt (by assumption))
      · exact (ih b).2 g h

/-- The scan is stable: the element it returns is the first element of
`b :: l` whose key equals the minimum. -/
theorem find?_runMinBy (key : Flight → Int) (l : List Flight) (b : Flight) :
    (b :: l).find? (fun g => key g == minKeyFrom key b l) = some (runMinBy key b l) := by
  induction l generalizing b with
  | nil =>
    simp [minKeyFrom, runMinBy, List.find?]
  | cons f rest ih =>
    rw [minKeyFrom_cons]
    by_cases hlt : key f < key b
    · rw [if_pos hlt]
      have hm : minKeyFrom key f rest ≤ key f := (minKeyFrom_le key rest f).1
      have hbne : (key b == minKeyFrom key f rest) = false := by
        simp only [beq_eq_false_iff_ne, ne_eq]
        intro heq
        exact absurd (heq ▸ lt_of_le_of_lt hm hlt) (lt_irrefl _)
      rw [List.find?_cons_of_neg _ (by simp [hbne])]
      rw [ih f, runMinBy_cons, if_pos hlt]
    · rw [if_neg hlt]
      have hble : key b ≤ key f := le_of_not_lt hlt
      have hm : minKeyFrom key b rest ≤ key b := (minKeyFrom_le key rest b).1
      by_cases hb : key b = minKeyFrom key b rest
      · have hfind : (b :: rest).find? (fun g => key g == minKeyFrom key b rest) = some b :=
          List.find?_cons_of_pos _ (by simp [hb])
        have : some b = some (runMinBy key b rest) := by rw [← ih b, hfind]
        rw [List.find?_cons_of_pos _ (by simp [hb])]
        rw [runMinBy_cons, if_neg hlt]
        exact this
      · have hfne : (key f == minKeyFrom key b rest) = false := by
          simp only [beq_eq_false_iff_ne, ne_eq]
          intro heq
          exact hb (le_antisymm (le_trans hble (le_of_eq heq)) hm)
        have hbne : (key b == minKeyFrom key b rest) = false := by
          simp only [beq_eq_false_iff_ne, ne_eq]
          exact hb
        rw [List.find?_cons_of_neg _ (by simp [hbne])]
        rw [List.find?_cons_of_neg _ (by simp [hfne])]
        have := ih b
        rw [List.find?_cons_of_neg _ (by simp [hbne])] at this
        rw [this, runMinBy_cons, if_neg hlt]

/-- For a nonempty list the scan branch always returns an element
(no `IndexError` in the embedding). -/
theorem search_flight_nonempty (cheapest : Bool) (f : Flight) (rest : List Flight) :
    ∃ r, search_flight cheapest (f :: rest) = some r := by
  unfold search_flight
  by_cases hlen : (f :: rest).length = 1
  · rw [if_pos hlen]; exact ⟨f, rfl⟩
  · rw [if_neg hlen]
    cases cheapest with
    | true => exact ⟨runMinBy (fun g => g.price) f rest, by simp [find_cheapest_flight]⟩
    | false => exact ⟨runMinBy (fun g => g.duration.total) f rest, by simp [find_fastest_flight]⟩

/-! ## JSON values and the body of `get_flights`

`get_flights` runs `r.json()['data']` on a 200 response.  `Json` embeds the
parsed response body (objects as association lists, assumed duplicate-free
as produced by `json` parsing); `lookupField` embeds dict lookup, and
`PyErr` the exceptions the expression can raise: `KeyError` when the key is
absent from an object, `TypeError` when the parsed body is not an object,
and `HTTPError` for `raise_for_status` on a 400..599 status.  None of these
three is caught by the `handling_request` decorator except `HTTPError`. -/

inductive Json where
  | null
  | bool (b : Bool)
  | num (n : Int)
  | str (s : String)
  | arr (elems : List Json)
  | obj (fields : List (String × Json))

/-- The exceptions the embedded request bodies can raise. -/
inductive PyErr where
  | httpError (status : Nat)
  | keyError
  | typeError
deriving Repr, DecidableEq

/-- Dict lookup on a parsed JSON object. -/
def lookupField : List (String × Json) → String → Option Json
  | [], _ => none
  | (k, v) :: rest, key => if k = key then some v else lookupField rest key

/-- The body of `FlightBooker.get_flights` once `requests.get` has returned
a response with the given status code and parsed JSON body:
`r.raise_for_status()` raises `HTTPError` exactly for statuses 400..599;
then `if r.status_code == 200: return r.json()['data']`, falling through to
an implicit `return None` for any other non-raising status. -/
def get_flights (status : Nat) (body : Json) : Except PyErr (Option Json) :=
  if 400 ≤ status ∧ status < 600 then .error (.httpError status)
  else if status = 200 then
    match body with
    | .obj fields =>
      match lookupField fields "data" with
      | some v => .ok (some v)
      | none => .error .keyError
    | _ => .error .typeError
  else .ok none

/-! ## Printed messages and the confirmation loop -/

/-- The apostrophe character, built from its code point. -/
def apostrophe : Char := Char.ofNat 39

def connErrorMsg : String :=
  "Failed to establish connection, check your internet settings and try again"

def timeoutMsg : String := "Connection timed out"

def noFlightsMsg : String := "No suitable flights were found based on your criteria"

def notBookedMsg : String := "Flight wasn" ++ String.singleton apostrophe ++ "t booked"

/-- The `HTTPError` text the decorator prints for a 4xx/5xx status; the
exact `requests` wording carries the status code and URL, modelled here as
a function of the status code alone. -/
def httpErrorMessage (status : Nat) : String := toString status ++ " Error"

def bookedMsgHead : String := "Your flight was booked, booking id: "

def bookedMsg (id : String) : String := bookedMsgHead ++ id

/-- Python `str.lower()` restricted to the ASCII case mapping. -/
def lowerStr (s : String) : String := String.mk (s.data.map Char.toLower)

/-- Whether an interactive answer terminates the confirmation loop:
`choice.lower() in ('y', 'n')`. -/
def isDecisive (a : String) : Bool := (lowerStr a == "y") || (lowerStr a == "n")

/-- What one terminating execution of `proceed_with_booking` did: booked or
declined, after how many `input()` prompts. -/
inductive ConfirmOutcome where
  | booked (prompts : Nat)
  | declined (prompts : Nat)
deriving Repr, DecidableEq

/-- One more prompt happened before the recorded outcome. -/
def ConfirmOutcome.bump : ConfirmOutcome → ConfirmOutcome
  | booked n => booked (n + 1)
  | declined n => declined (n + 1)

/-- `FlightBooker.proceed_with_booking` over a scripted list of interactive
answers: `while choice.lower() not in ('y', 'n')` reads an answer, books on
`'y'` (case-insensitively), prints the non-booking message on `'n'`, and
otherwise loops.  `none` models the loop still prompting when the script
runs out: with no decisive answer the real loop never terminates. -/
def proceed_with_booking : List String → Option ConfirmOutcome
  | [] => none
  | a :: rest =>
    if lowerStr a = "y" then some (.booked 1)
    else if lowerStr a = "n" then some (.declined 1)
    else (proceed_with_booking rest).map ConfirmOutcome.bump

/-! ## The request/response environment and the end-to-end run -/

/-- Outcome of one `requests` call: a completed HTTP exchange (any status),
a connection error, or a timeout. -/
inductive NetResult (α : Type) where
  | ok (response : α)
  | connError
  | timeout
deriving Repr, DecidableEq

/-- The shape of the search-response body as far as `get_flights` and the
selection code read it: a `data` field holding well-formed flight records,
a JSON object with no `data` field, or a non-object body. -/
inductive SearchBody where
  | withData (flights : List Flight)
  | noData
  | notObj
deriving Repr, DecidableEq

/-- The shape of the booking-response body as far as `book_flight` reads
it: a `booking_id` field, an object without one, or a non-object body. -/
inductive BookBody where
  | withId (id : String)
  | noId
  | notObj
deriving Repr, DecidableEq

/-- Result of one decorated request step: a returned value, `sys.exit(1)`
after the decorator printed a message, or an uncaught exception. -/
inductive Step (α : Type) where
  | ok (a : α)
  | fatal (msg : String)
  | crash
deriving Repr, DecidableEq

/-- How a whole run ends, with the lines printed along the way: normal
completion (process exit code 0), `sys.exit(1)` from the decorator,
an uncaught exception (CPython exits 1 with a traceback), or blocked
waiting for more interactive input. -/
inductive RunOutcome where
  | done (out : List String)
  | fatal (out : List String)
  | crash (out : List String)
  | blocked (out : List String)
deriving Repr, DecidableEq

/-- The lines printed before the run ended. -/
def RunOutcome.out : RunOutcome → List String
  | done o => o
  | fatal o => o
  | crash o => o
  | blocked o => o

/-- The process exit code: 0 on normal completion, 1 on `sys.exit(1)` and
on an uncaught exception; `none` while still blocked on input. -/
def RunOutcome.exitCode : RunOutcome → Option Nat
  | done _ => some 0
  | fatal _ => some 1
  | crash _ => some 1
  | blocked _ => none

/-- Prepend lines printed earlier in the run. -/
def RunOutcome.withOut (pre : List String) : RunOutcome → RunOutcome
  | done o => done (pre ++ o)
  | fatal o => fatal (pre ++ o)
  | crash o => crash (pre ++ o)
  | blocked o => blocked (pre ++ o)

/-- `get_flights` under the `handling_request` decorator, over the typed
search response: connection error and timeout print their fixed texts and
exit 1; a 400..599 status raises `HTTPError`, printed and exit 1; a 200
status reads `r.json()['data']` (crash when the field or object shape is
missing); any other completed status falls through to `return None`. -/
def get_flights_step (resp : NetResult (Nat × SearchBody)) : Step (Option (List Flight)) :=
  match resp with
  | .connError => .fatal connErrorMsg
  | .timeout => .fatal timeoutMsg
  | .ok (s, body) =>
    if 400 ≤ s ∧ s < 600 then .fatal (httpErrorMessage s)
    else if s = 200 then
      match body with
      | .withData l => .ok (some l)
      | .noData => .crash
      | .notObj => .crash
    else .ok none

/-- `FlightBooker.search_message`: the status line printed before the
search call, built from the filter. -/
def search_message (cfg : Args) : String :=
  let fl := set_filter cfg
  "Searching for " ++ (if cfg.cheapest then "cheapest" else "fastest") ++ ", " ++
    fl.typeFlight ++ " flight, from " ++ fl.flyFrom ++ " to " ++ fl.to_

/-- `FlightBooker.show_flight_details`: the details block printed for the
chosen flight (`None`, a falsy value, prints the not-found line). -/
def show_flight_details (cfg : Args) : Option Flight → List String
  | none => ["", "No suitable flight was found"]
  | some f =>
    ["", "Flight from: " ++ f.flyFrom, "To: " ++ f.flyTo,
      "Price: " ++ toString f.price ++ " EUR",
      "Flight duration: " ++ f.fly_duration] ++
    (if truthyOptInt cfg.returning then ["Return duration: " ++ f.return_duration] else [])

/-- `FlightBooker.book_flight` under the decorator: prints the bag line,
posts the booking payload, maps transport failures to exit 1, and on a 200
or 201 status prints the booking id from the parsed body (crashing when
the field or object shape is missing); any other non-raising status
returns silently. -/
def bagsLines (cfg : Args) : List String :=
  ["", "Booking flight with " ++ toString cfg.bags ++ " bags"]

def book_flight_run (cfg : Args) (resp : NetResult (Nat × BookBody)) : RunOutcome :=
  match resp with
  | .connError => .fatal (bagsLines cfg ++ [connErrorMsg])
  | .timeout => .fatal (bagsLines cfg ++ [timeoutMsg])
  | .ok (s, body) =>
    if 400 ≤ s ∧ s < 600 then .fatal (bagsLines cfg ++ [httpErrorMessage s])
    else if s = 200 ∨ s = 201 then
      match body with
      | .withId id => .done (bagsLines cfg ++ [bookedMsg id])
      | .noId => .crash (bagsLines cfg)
      | .notObj => .crash (bagsLines cfg)
    else .done (bagsLines cfg)

/-- The confirmation loop inside the run: a `'y'` answer calls
`book_flight`, a `'n'` answer prints the non-booking line and returns, and
any other answer loops on the remaining scripted answers. -/
def proceed_loop (cfg : Args) (bookResp : NetResult (Nat × BookBody)) :
    List String → RunOutcome
  | [] => .blocked []
  | a :: rest =>
    if lowerStr a = "y" then book_flight_run cfg bookResp
    else if lowerStr a = "n" then .done [notBookedMsg]
    else proceed_loop cfg bookResp rest

/-- The routing decision of `FlightBooker.handle_booking` on the value
`get_flights` returned: `if flights_data:` — `None` and the empty list are
falsy and go to the no-flights message; a nonempty list goes to
`search_flight` and onwards to confirmation. -/
inductive BookingRoute where
  | noFlights
  | proceeded (chosen : Option Flight)
deriving Repr, DecidableEq

/-- The `if flights_data:` routing of `FlightBooker.handle_booking`. -/
def handle_booking_route (cheapest : Bool) : Option (List Flight) → BookingRoute
  | none => .noFlights
  | some l => if l.isEmpty then .noFlights else .proceeded (search_flight cheapest l)

/-- The whole run of `FlightBooker.handle_booking`: search message, the
decorated search call, routing on the candidate list, selection, details,
then the confirmation loop and the decorated booking call. -/
def handle_booking_run (cfg : Args) (searchResp : NetResult (Nat × SearchBody))
    (answers : List String) (bookResp : NetResult (Nat × BookBody)) : RunOutcome :=
  match get_flights_step searchResp with
  | .fatal m => .fatal [search_message cfg, m]
  | .crash => .crash [search_message cfg]
  | .ok none => .done [search_message cfg, noFlightsMsg]
  | .ok (some l) =>
    if l.isEmpty then .done [search_message cfg, noFlightsMsg]
    else
      match search_flight cfg.cheapest l with
      | none => .crash [search_message cfg]
      | some f =>
        RunOutcome.withOut ([search_message cfg] ++ show_flight_details cfg (some f) ++ [""])
          (proceed_loop cfg bookResp answers)

/-! ## Sample inputs used by the closed witnesses and counterexamples -/

/-- Scenario-A/B candidate: price 100, total duration 300. -/
def flightA : Flight :=
  { flyFrom := "LHR", flyTo := "PRG", price := 100, duration := { total := 300 },
    fly_duration := "5h 0m", return_duration := "", booking_token := "tokA" }

/-- Scenario-A/B candidate: price 80, total duration 500. -/
def flightB : Flight :=
  { flyFrom := "LHR", flyTo := "PRG", price := 80, duration := { total := 500 },
    fly_duration := "8h 20m", return_duration := "", booking_token := "tokB" }

/-- A price tie with `flightB` appearing later in the list. -/
def flightC : Flight :=
  { flyFrom := "LHR", flyTo := "PRG", price := 80, duration := { total := 450 },
    fly_duration := "7h 30m", return_duration := "", booking_token := "tokC" }

/-- A parsed one-way input: no `--returning`, neither criterion flag. -/
def cfgOneWay : Args :=
  { date := "01/05/2021", flight_from := "LHR", to_ := "PRG", one_way := true,
    returning := none, cheapest := false, fastest := false, direct := false, bags := 0 }

/-- A parsed input with `--returning 3` (and the `--one_way` default). -/
def cfgReturn3 : Args := { cfgOneWay with returning := some 3 }

/-- A parsed input with `--returning 0`. -/
def cfgReturn0 : Args := { cfgOneWay with returning := some 0 }

/-! ## Theorems about the claims -/

/-- The scan started at `f` over `rest` returns a key-minimal element of
`f :: rest`, and it is the first element of `f :: rest` attaining its key
(stability). -/
theorem runMinBy_spec (key : Flight → Int) (f : Flight) (rest : List Flight) :
    (∀ g ∈ f :: rest, key (runMinBy key f rest) ≤ key g) ∧
    (f :: rest).find? (fun g => key g == key (runMinBy key f rest)) =
      some (runMinBy key f rest) := by
  constructor
  · intro g hg
    rw [key_runMinBy key rest f]
    rcases List.mem_cons.mp hg with h | h
    · exact h ▸ (minKeyFrom_le key rest f).1
    · exact (minKeyFrom_le key rest f).2 g h
  · have h := find?_runMinBy key rest f
    rwa [← key_runMinBy key rest f] at h

/-- C1: for every non-empty candidate list, under the CHEAPEST criterion
`search_flight` (and `find_cheapest_flight` itself) returns a candidate of
minimum price, and that candidate is the first element of the list whose
price equals the minimum: the scan is stable left-to-right with no
secondary tie-break. -/
theorem search_flight_cheapest_first_min (l : List Flight) (h : l ≠ []) :
    (∃ r, search_flight true l = some r ∧ (∀ g ∈ l, r.price ≤ g.price) ∧
      l.find? (fun g => g.price == r.price) = some r) ∧
    (∃ r, find_cheapest_flight l = some r ∧ (∀ g ∈ l, r.price ≤ g.price) ∧
      l.find? (fun g => g.price == r.price) = some r) := by
  obtain ⟨f, rest, rfl⟩ : ∃ f rest, l = f :: rest := by
    cases l with
    | nil => exact absurd rfl h
    | cons f rest => exact ⟨f, rest, rfl⟩
  have hspec := runMinBy_spec (fun g => g.price) f rest
  have hcheap : ∃ r, find_cheapest_flight (f :: rest) = some r ∧
      (∀ g ∈ f :: rest, r.price ≤ g.price) ∧
      (f :: rest).find? (fun g => g.price == r.price) = some r := by
    refine ⟨runMinBy (fun g => g.price) f rest, rfl, ?_, ?_⟩
    · exact hspec.1
    · exact hspec.2
  refine ⟨?_, hcheap⟩
  by_cases hlen : rest = []
  · subst hlen
    refine ⟨f, ?_, ?_, ?_⟩
    · rfl
    · intro g hg
      rcases List.mem_singleton.mp hg with rfl
      exact le_refl _
    · simp [List.find?]
  · have hlen2 : (f :: rest).length ≠ 1 := by
      simp only [List.length_cons, ne_eq, Nat.add_left_eq_self.symm]
      intro hzero
      exact hlen (List.length_eq_zero.mp (by omega))
    obtain ⟨r, hr, hmin, hfind⟩ := hcheap
    refine ⟨r, ?_, hmin, hfind⟩
    unfold search_flight
    rw [if_neg hlen2, if_pos rfl]
    exact hr

/-- C1 witness: the price tie `flightB`/`flightC` is resolved to the
first-seen `flightB` on scenario-A style data. -/
theorem search_flight_cheapest_first_min_witness :
    (∃ r, search_flight true [flightA, flightB, flightC] = some r ∧
      (∀ g ∈ [flightA, flightB, flightC], r.price ≤ g.price) ∧
      [flightA, flightB, flightC].find? (fun g => g.price == r.price) = some r) ∧
    (∃ r, find_cheapest_flight [flightA, flightB, flightC] = some r ∧
      (∀ g ∈ [flightA, flightB, flightC], r.price ≤ g.price) ∧
      [flightA, flightB, flightC].find? (fun g => g.price == r.price) = some r) :=
  search_flight_cheapest_first_min [flightA, flightB, flightC] (by decide)

/-- C2: for every non-empty candidate list, under the FASTEST criterion
`search_flight` (and `find_fastest_flight` itself) returns a candidate of
minimum total duration, and that candidate is the first element attaining
the minimum: the same stable first-seen tie policy as the cheapest case. -/
theorem search_flight_fastest_first_min (l : List Flight) (h : l ≠ []) :
    (∃ r, search_flight false l = some r ∧
      (∀ g ∈ l, r.duration.total ≤ g.duration.total) ∧
      l.find? (fun g => g.duration.total == r.duration.total) = some r) ∧
    (∃ r, find_fastest_flight l = some r ∧
      (∀ g ∈ l, r.duration.total ≤ g.duration.total) ∧
      l.find? (fun g => g.duration.total == r.duration.total) = some r) := by
  obtain ⟨f, rest, rfl⟩ : ∃ f rest, l = f :: rest := by
    cases l with
    | nil => exact absurd rfl h
    | cons f rest => exact ⟨f, rest, rfl⟩
  have hspec := runMinBy_spec (fun g => g.duration.total) f rest
  have hfast : ∃ r, find_fastest_flight (f :: rest) = some r ∧
      (∀ g ∈ f :: rest, r.duration.total ≤ g.duration.total) ∧
      (f :: rest).find? (fun g => g.duration.total == r.duration.total) = some r := by
    refine ⟨runMinBy (fun g => g.duration.total) f rest, rfl, ?_, ?_⟩
    · exact hspec.1
    · exact hspec.2
  refine ⟨?_, hfast⟩
  by_cases hlen : rest = []
  · subst hlen
    refine ⟨f, ?_, ?_, ?_⟩
    · rfl
    · intro g hg
      rcases List.mem_singleton.mp hg with rfl
      exact le_refl _
    · simp [List.find?]
  · have hlen2 : (f :: rest).length ≠ 1 := by
      simp only [List.length_cons, ne_eq, Nat.add_left_eq_self.symm]
      intro hzero
      exact hlen (List.length_eq_zero.mp (by omega))
    obtain ⟨r, hr, hmin, hfind⟩ := hfast
    refine ⟨r, ?_, hmin, hfind⟩
    unfold search_flight
    rw [if_neg hlen2]
    exact hr

/-- C2 witness: on the scenario-B data the duration-keyed scan picks
`flightA` (duration 300). -/
theorem search_flight_fastest_first_min_witness :
    (∃ r, search_flight false [flightA, flightB, flightC] = some r ∧
      (∀ g ∈ [flightA, flightB, flightC], r.duration.total ≤ g.duration.total) ∧
      [flightA, flightB, flightC].find?
        (fun g => g.duration.total == r.duration.total) = some r) ∧
    (∃ r, find_fastest_flight [flightA, flightB, flightC] = some r ∧
      (∀ g ∈ [flightA, flightB, flightC], r.duration.total ≤ g.duration.total) ∧
      [flightA, flightB, flightC].find?
        (fun g => g.duration.total == r.duration.total) = some r) :=
  search_flight_fastest_first_min [flightA, flightB, flightC] (by decide)

/-- C3 counterexample: a 200 response whose JSON object has no `data`
field makes `get_flights` raise an uncaught `KeyError` at
`r.json()['data']` — it does not return an empty sequence. -/
theorem get_flights_missing_data_keyError :
    get_flights 200 (Json.obj []) = Except.error PyErr.keyError := rfl

/-- C3 amended: on a 200 response whose body parses as a JSON object,
`get_flights` returns whatever the `data` field holds when it is present
(an empty array gives the empty sequence, not an error), and raises
`KeyError` when the field is absent. -/
theorem get_flights_data_field_cases (fields : List (String × Json)) :
    (∀ j, lookupField fields "data" = some j →
      get_flights 200 (Json.obj fields) = Except.ok (some j)) ∧
    (lookupField fields "data" = none →
      get_flights 200 (Json.obj fields) = Except.error PyErr.keyError) ∧
    get_flights 200 (Json.obj [("data", Json.arr [])]) = Except.ok (some (Json.arr [])) := by
  have h4 : ¬(400 ≤ (200 : Nat) ∧ (200 : Nat) < 600) := by omega
  refine ⟨?_, ?_, rfl⟩
  · intro j hj
    unfold get_flights
    rw [if_neg h4, if_pos rfl]
    simp only [hj]
  · intro hj
    unfold get_flights
    rw [if_neg h4, if_pos rfl]
    simp only [hj]

/-- C3 witness: a present-and-empty `data` array yields the empty
sequence, and absence yields `KeyError`. -/
theorem get_flights_data_field_cases_witness :
    get_flights 200 (Json.obj [("data", Json.arr [])]) = Except.ok (some (Json.arr [])) ∧
    get_flights 200 (Json.obj [("other", Json.null)]) = Except.error PyErr.keyError :=
  ⟨(get_flights_data_field_cases []).2.2,
    (get_flights_data_field_cases [("other", Json.null)]).2.1 rfl⟩

/-- C4 counterexample: the parser leaves `one_way` at its `default=True`
when only `--returning 3` is passed, and the fixups keep it true: the
resolved configuration has `one_way` active together with a supplied
returning-nights value, so ONE_WAY and ROUND_TRIP are not mutually
exclusive in the resolved `SearchConfig`. -/
theorem resolve_returning_keeps_one_way :
    ParserAccepts cfgReturn3 ∧ (resolve cfgReturn3).one_way = true ∧
      (resolve cfgReturn3).returning = some 3 ∧
      (set_filter (resolve cfgReturn3)).typeFlight = "round" := by
  unfold ParserAccepts
  decide

/-- C4 amended: for every parser-accepted flag combination, the resolution
makes exactly one of CHEAPEST/FASTEST active; the `one_way` field however
is always true in the resolved configuration (even when a returning value
was supplied), and the effective trip type is carried by the filter string
`typeFlight`, which is exactly one of `oneway`/`round`. -/
theorem resolve_invariants (a : Args) (h : ParserAccepts a) :
    ((resolve a).cheapest = true ∧ (resolve a).fastest = false ∨
      (resolve a).cheapest = false ∧ (resolve a).fastest = true) ∧
    (resolve a).one_way = true ∧
    ((set_filter (resolve a)).typeFlight = "oneway" ∧
        (set_filter (resolve a)).typeFlight ≠ "round" ∨
      (set_filter (resolve a)).typeFlight = "round" ∧
        (set_filter (resolve a)).typeFlight ≠ "oneway") := by
  obtain ⟨h1, h2⟩ := h
  refine ⟨?_, ?_, ?_⟩
  · rw [resolve_cheapest, resolve_fastest]
    cases hf : a.fastest with
    | false => left; simp
    | true =>
      have hc : a.cheapest = false := by
        cases hcv : a.cheapest with
        | false => rfl
        | true => exact absurd ⟨hcv, hf⟩ h2
      right
      simp [hc]
  · rw [resolve_one_way, h1]
    rfl
  · unfold set_filter
    simp only
    split
    · right
      exact ⟨rfl, by decide⟩
    · left
      exact ⟨rfl, by decide⟩

/-- C4 witness: the amended invariants at the `--returning 3` input. -/
theorem resolve_invariants_witness :
    ((resolve cfgReturn3).cheapest = true ∧ (resolve cfgReturn3).fastest = false ∨
      (resolve cfgReturn3).cheapest = false ∧ (resolve cfgReturn3).fastest = true) ∧
    (resolve cfgReturn3).one_way = true ∧
    ((set_filter (resolve cfgReturn3)).typeFlight = "oneway" ∧
        (set_filter (resolve cfgReturn3)).typeFlight ≠ "round" ∨
      (set_filter (resolve cfgReturn3)).typeFlight = "round" ∧
        (set_filter (resolve cfgReturn3)).typeFlight ≠ "oneway") :=
  resolve_invariants cfgReturn3 (by unfold ParserAccepts; decide)

/-- C5 counterexample: `--returning 0` supplies a returning-nights value,
yet `'round' if self.input_config.returning else 'oneway'` evaluates the
integer 0 as falsy, so the filter trip-type is `oneway`, not `round`. -/
theorem set_filter_returning_zero_oneway :
    cfgReturn0.returning = some 0 ∧ (set_filter cfgReturn0).typeFlight = "oneway" ∧
      (set_filter cfgReturn0).typeFlight ≠ "round" := by decide

/-- C5 amended: the filter trip-type string is `round` exactly when a
nonzero returning-nights value was given, and `oneway` exactly when the
value is absent or 0 (Python truthiness of the integer); whenever the
returning value is absent or 0 the resolution also forces `one_way`
to true. -/
theorem set_filter_trip_type (a : Args) :
    ((set_filter a).typeFlight = "round" ↔ ∃ n, a.returning = some n ∧ n ≠ 0) ∧
    ((set_filter a).typeFlight = "oneway" ↔
      (a.returning = none ∨ a.returning = some 0)) ∧
    (truthyOptInt a.returning = false → (resolve a).one_way = true) := by
  refine ⟨?_, ?_, ?_⟩
  · unfold set_filter
    simp only
    cases hr : a.returning with
    | none => simp [truthyOptInt]
    | some n =>
      by_cases hn : n = 0
      · subst hn
        simp [truthyOptInt]
      · simp [truthyOptInt, hn]
  · unfold set_filter
    simp only
    cases hr : a.returning with
    | none => simp [truthyOptInt]
    | some n =>
      by_cases hn : n = 0
      · subst hn
        simp [truthyOptInt]
      · simp [truthyOptInt, hn]
  · intro ht
    rw [resolve_one_way, ht]
    simp

/-- C5 witness: the amended trip-type characterisation at the
`--returning 0` input. -/
theorem set_filter_trip_type_witness :
    (set_filter cfgReturn0).typeFlight = "oneway" ∧ (resolve cfgReturn0).one_way = true :=
  ⟨(set_filter_trip_type cfgReturn0).2.1.mpr (Or.inr rfl),
    (set_filter_trip_type cfgReturn0).2.2 (by decide)⟩

/-- C6: `handle_booking` routes a falsy candidate value (`None` or the
empty list) to the no-flights message without calling `search_flight` or
booking; whenever it does proceed, the candidate list is nonempty and the
scan returns an element, so the scan indexing of the first element is safe
under this calling discipline. -/
theorem handle_booking_route_safe (cheapest : Bool) (fd : Option (List Flight)) :
    (fd = none → handle_booking_route cheapest fd = .noFlights) ∧
    (fd = some [] → handle_booking_route cheapest fd = .noFlights) ∧
    (∀ c, handle_booking_route cheapest fd = .proceeded c →
      ∃ l r, fd = some l ∧ l ≠ [] ∧ c = some r ∧ search_flight cheapest l = some r) := by
  refine ⟨?_, ?_, ?_⟩
  · rintro rfl
    rfl
  · rintro rfl
    rfl
  · intro c hc
    cases fd with
    | none => exact absurd hc (by simp [handle_booking_route])
    | some l =>
      cases l with
      | nil => exact absurd hc (by simp [handle_booking_route])
      | cons f rest =>
        obtain ⟨r, hr⟩ := search_flight_nonempty cheapest f rest
        have hc2 : BookingRoute.proceeded (search_flight cheapest (f :: rest)) =
            BookingRoute.proceeded c := by
          simpa [handle_booking_route] using hc
        refine ⟨f :: rest, r, rfl, List.cons_ne_nil f rest, ?_, hr⟩
        have := BookingRoute.proceeded.inj hc2
        rw [← this, hr]

/-- C6 witness: the empty candidate list routes to the no-flights message
and a two-element list proceeds with a selected flight. -/
theorem handle_booking_route_safe_witness :
    handle_booking_route true (some []) = BookingRoute.noFlights ∧
    handle_booking_route true none = BookingRoute.noFlights :=
  ⟨(handle_booking_route_safe true (some [])).2.1 rfl,
    (handle_booking_route_safe true none).1 rfl⟩

/-- A search-call outcome the `handling_request` decorator turns into
`sys.exit(1)`: connection error, timeout, or a completed response whose
status makes `raise_for_status` raise (400..599). -/
def searchFailure (r : NetResult (Nat × SearchBody)) : Prop :=
  r = .connError ∨ r = .timeout ∨ ∃ s body, r = .ok (s, body) ∧ 400 ≤ s ∧ s < 600

/-- The same taxonomy for the booking call. -/
def bookFailure (r : NetResult (Nat × BookBody)) : Prop :=
  r = .connError ∨ r = .timeout ∨ ∃ s body, r = .ok (s, body) ∧ 400 ≤ s ∧ s < 600

theorem withOut_exitCode (pre : List String) (r : RunOutcome) :
    (RunOutcome.withOut pre r).exitCode = r.exitCode := by
  cases r <;> rfl

theorem withOut_out (pre : List String) (r : RunOutcome) :
    (RunOutcome.withOut pre r).out = pre ++ r.out := by
  cases r <;> rfl

theorem isDecisive_false (a : String) (h : isDecisive a = false) :
    ¬lowerStr a = "y" ∧ ¬lowerStr a = "n" := by
  unfold isDecisive at h
  simp only [Bool.or_eq_false_iff, beq_eq_false_iff_ne, ne_eq] at h
  exact h

theorem proceed_loop_cons (cfg : Args) (bookResp : NetResult (Nat × BookBody))
    (a : String) (rest : List String) :
    proceed_loop cfg bookResp (a :: rest) =
      if lowerStr a = "y" then book_flight_run cfg bookResp
      else if lowerStr a = "n" then .done [notBookedMsg]
      else proceed_loop cfg bookResp rest := rfl

theorem book_flight_run_ok (cfg : Args) (s : Nat) (body : BookBody) :
    book_flight_run cfg (.ok (s, body)) =
      if 400 ≤ s ∧ s < 600 then .fatal (bagsLines cfg ++ [httpErrorMessage s])
      else if s = 200 ∨ s = 201 then
        match body with
        | .withId id => .done (bagsLines cfg ++ [bookedMsg id])
        | .noId => .crash (bagsLines cfg)
        | .notObj => .crash (bagsLines cfg)
      else .done (bagsLines cfg) := rfl

theorem get_flights_step_ok (s : Nat) (body : SearchBody) :
    get_flights_step (.ok (s, body)) =
      if 400 ≤ s ∧ s < 600 then .fatal (httpErrorMessage s)
      else if s = 200 then
        match body with
        | .withData l => .ok (some l)
        | .noData => .crash
        | .notObj => .crash
      else .ok none := rfl

/-- Indecisive answers only make the loop prompt again. -/
theorem proceed_loop_skip (cfg : Args) (bookResp : NetResult (Nat × BookBody))
    (skipped rest : List String) (h : ∀ b ∈ skipped, isDecisive b = false) :
    proceed_loop cfg bookResp (skipped ++ rest) = proceed_loop cfg bookResp rest := by
  induction skipped with
  | nil => rfl
  | cons b bs ih =>
    obtain ⟨h1, h2⟩ := isDecisive_false b (h b (List.mem_cons_self b bs))
    show proceed_loop cfg bookResp (b :: (bs ++ rest)) = _
    rw [proceed_loop_cons, if_neg h1, if_neg h2]
    exact ih (fun x hx => h x (List.mem_cons_of_mem b hx))

theorem book_flight_run_failure (cfg : Args) (bookResp : NetResult (Nat × BookBody))
    (h : bookFailure bookResp) : (book_flight_run cfg bookResp).exitCode = some 1 := by
  rcases h with rfl | rfl | ⟨s, body, rfl, hs1, hs2⟩
  · rfl
  · rfl
  · rw [book_flight_run_ok, if_pos ⟨hs1, hs2⟩]
    rfl

theorem get_flights_step_200_data (l : List Flight) :
    get_flights_step (.ok (200, .withData l)) = .ok (some l) := rfl

/-- A 200 search response with a nonempty candidate list takes the run to
the details block and the confirmation loop, with the selected flight. -/
theorem handle_booking_run_nonempty (cfg : Args) (f : Flight) (rest : List Flight)
    (answers : List String) (bookResp : NetResult (Nat × BookBody)) :
    ∃ r, search_flight cfg.cheapest (f :: rest) = some r ∧
      handle_booking_run cfg (.ok (200, .withData (f :: rest))) answers bookResp =
        RunOutcome.withOut
          ([search_message cfg] ++ show_flight_details cfg (some r) ++ [""])
          (proceed_loop cfg bookResp answers) := by
  obtain ⟨r, hr⟩ := search_flight_nonempty cfg.cheapest f rest
  refine ⟨r, hr, ?_⟩
  unfold handle_booking_run
  rw [get_flights_step_200_data]
  simp only [List.isEmpty_cons, Bool.false_eq_true, if_false, hr]

/-- C7 counterexample: a completed search response with the non-2xx status
304 does not raise in `raise_for_status` (which raises only for 400..599),
so the run completes with exit code 0 on the no-flights path instead of
terminating with exit code 1. -/
theorem run_status_304_exit_zero :
    (handle_booking_run cfgOneWay (.ok (304, .noData)) []
        (.ok (201, .withId "x"))).exitCode = some 0 ∧
    handle_booking_run cfgOneWay (.ok (304, .noData)) [] (.ok (201, .withId "x")) =
      .done [search_message cfgOneWay, noFlightsMsg] :=
  ⟨rfl, rfl⟩

/-- C7 amended: a connection failure, timeout, or HTTP response with
status 400..599 in either call exits with code 1 after printing a message;
a non-error status other than 200 on the search (including non-2xx codes
below 400 such as 304) flows to the no-flights path with exit code 0; and
the declined-booking, no-flights and successful-booking paths all complete
with exit code 0. -/
theorem run_exit_codes :
    (∀ cfg searchResp answers bookResp, searchFailure searchResp →
      (handle_booking_run cfg searchResp answers bookResp).exitCode = some 1) ∧
    (∀ cfg l skipped a rest bookResp, l ≠ [] →
      (∀ b ∈ skipped, isDecisive b = false) → lowerStr a = "y" → bookFailure bookResp →
      (handle_booking_run cfg (.ok (200, .withData l)) (skipped ++ a :: rest)
        bookResp).exitCode = some 1) ∧
    (∀ cfg answers bookResp,
      handle_booking_run cfg (.ok (200, .withData [])) answers bookResp =
        .done [search_message cfg, noFlightsMsg]) ∧
    (∀ cfg s body answers bookResp, ¬(400 ≤ s ∧ s < 600) → s ≠ 200 →
      handle_booking_run cfg (.ok (s, body)) answers bookResp =
        .done [search_message cfg, noFlightsMsg]) ∧
    (∀ cfg l skipped a rest bookResp, l ≠ [] →
      (∀ b ∈ skipped, isDecisive b = false) → lowerStr a = "n" →
      (handle_booking_run cfg (.ok (200, .withData l)) (skipped ++ a :: rest)
        bookResp).exitCode = some 0 ∧
      notBookedMsg ∈ (handle_booking_run cfg (.ok (200, .withData l))
        (skipped ++ a :: rest) bookResp).out) ∧
    (∀ cfg l skipped a rest s id, l ≠ [] →
      (∀ b ∈ skipped, isDecisive b = false) → lowerStr a = "y" → (s = 200 ∨ s = 201) →
      (handle_booking_run cfg (.ok (200, .withData l)) (skipped ++ a :: rest)
        (.ok (s, .withId id))).exitCode = some 0 ∧
      bookedMsg id ∈ (handle_booking_run cfg (.ok (200, .withData l))
        (skipped ++ a :: rest) (.ok (s, .withId id))).out) := by
  refine ⟨?_, ?_, ?_, ?_, ?_, ?_⟩
  · intro cfg searchResp answers bookResp h
    rcases h with rfl | rfl | ⟨s, body, rfl, hs1, hs2⟩
    · rfl
    · rfl
    · have hstep : get_flights_step (.ok (s, body)) = .fatal (httpErrorMessage s) := by
        rw [get_flights_step_ok, if_pos ⟨hs1, hs2⟩]
      unfold handle_booking_run
      rw [hstep]
      rfl
  · intro cfg l skipped a rest bookResp hl hskip hy hb
    obtain ⟨f, tail, rfl⟩ : ∃ f tail, l = f :: tail := by
      cases l with
      | nil => exact absurd rfl hl
      | cons f tail => exact ⟨f, tail, rfl⟩
    obtain ⟨r, _, heq⟩ := handle_booking_run_nonempty cfg f tail (skipped ++ a :: rest) bookResp
    rw [heq, withOut_exitCode, proceed_loop_skip cfg bookResp skipped _ hskip]
    show (proceed_loop cfg bookResp (a :: rest)).exitCode = some 1
    unfold proceed_loop
    rw [if_pos hy]
    exact book_flight_run_failure cfg bookResp hb
  · intro cfg answers bookResp
    rfl
  · intro cfg s body answers bookResp h1 h2
    have hstep : get_flights_step (.ok (s, body)) = .ok none := by
      rw [get_flights_step_ok, if_neg h1, if_neg h2]
    unfold handle_booking_run
    rw [hstep]
  · intro cfg l skipped a rest bookResp hl hskip hn
    have hny : ¬lowerStr a = "y" := by
      intro hcontra
      rw [hn] at hcontra
      exact absurd hcontra (by decide)
    obtain ⟨f, tail, rfl⟩ : ∃ f tail, l = f :: tail := by
      cases l with
      | nil => exact absurd rfl hl
      | cons f tail => exact ⟨f, tail, rfl⟩
    obtain ⟨r, _, heq⟩ := handle_booking_run_nonempty cfg f tail (skipped ++ a :: rest) bookResp
    have hloop : proceed_loop cfg bookResp (skipped ++ a :: rest) = .done [notBookedMsg] := by
      rw [proceed_loop_skip cfg bookResp skipped _ hskip]
      show proceed_loop cfg bookResp (a :: rest) = _
      unfold proceed_loop
      rw [if_neg hny, if_pos hn]
    constructor
    · rw [heq, withOut_exitCode, hloop]
      rfl
    · rw [heq, withOut_out, hloop]
      simp [RunOutcome.out]
  · intro cfg l skipped a rest s id hl hskip hy hs
    obtain ⟨f, tail, rfl⟩ : ∃ f tail, l = f :: tail := by
      cases l with
      | nil => exact absurd rfl hl
      | cons f tail => exact ⟨f, tail, rfl⟩
    obtain ⟨r, _, heq⟩ :=
      handle_booking_run_nonempty cfg f tail (skipped ++ a :: rest) (.ok (s, .withId id))
    have hloop : proceed_loop cfg (.ok (s, .withId id)) (skipped ++ a :: rest) =
        .done (bagsLines cfg ++ [bookedMsg id]) := by
      rw [proceed_loop_skip cfg _ skipped _ hskip]
      show proceed_loop cfg (.ok (s, .withId id)) (a :: rest) = _
      unfold proceed_loop
      rw [if_pos hy]
      rcases hs with rfl | rfl <;> rfl
    constructor
    · rw [heq, withOut_exitCode, hloop]
      rfl
    · rw [heq, withOut_out, hloop]
      simp [RunOutcome.out]

/-- C7 witness: a connection failure on the search exits with code 1, and
a declined booking completes with exit code 0. -/
theorem run_exit_codes_witness :
    (handle_booking_run cfgOneWay .connError [] (.ok (201, .withId "x"))).exitCode =
      some 1 ∧
    (handle_booking_run cfgOneWay (.ok (200, .withData [flightA, flightB]))
      (["maybe"] ++ "n" :: []) (.ok (201, .withId "x"))).exitCode = some 0 :=
  ⟨run_exit_codes.1 cfgOneWay .connError [] (.ok (201, .withId "x")) (Or.inl rfl),
    (run_exit_codes.2.2.2.2.1 cfgOneWay [flightA, flightB] ["maybe"] "n" []
      (.ok (201, .withId "x")) (by decide) (by decide) (by decide)).1⟩

theorem proceed_with_booking_cons (a : String) (rest : List String) :
    proceed_with_booking (a :: rest) =
      if lowerStr a = "y" then some (.booked 1)
      else if lowerStr a = "n" then some (.declined 1)
      else (proceed_with_booking rest).map ConfirmOutcome.bump := rfl

/-- The loop books exactly when the first decisive (case-insensitive y/n)
answer in the script is `y`, with only indecisive answers before it. -/
theorem proceed_booked_iff (answers : List String) :
    (∃ n, proceed_with_booking answers = some (.booked n)) ↔
      ∃ skipped a rest, answers = skipped ++ a :: rest ∧
        (∀ b ∈ skipped, isDecisive b = false) ∧ lowerStr a = "y" := by
  induction answers with
  | nil =>
    constructor
    · rintro ⟨n, h⟩
      exact absurd h (by simp [proceed_with_booking])
    · rintro ⟨skipped, a, rest, heq, -, -⟩
      have h0 := heq.symm
      rw [List.append_eq_nil] at h0
      exact absurd h0.2 (List.cons_ne_nil a rest)
  | cons x xs ih =>
    by_cases hy : lowerStr x = "y"
    · constructor
      · intro _
        exact ⟨[], x, xs, rfl, fun b hb => absurd hb (List.not_mem_nil b), hy⟩
      · intro _
        exact ⟨1, by rw [proceed_with_booking_cons, if_pos hy]⟩
    · by_cases hn : lowerStr x = "n"
      · constructor
        · rintro ⟨n, h⟩
          rw [proceed_with_booking_cons, if_neg hy, if_pos hn] at h
          exact absurd h (by simp)
        · rintro ⟨skipped, a, rest, heq, hskip, ha⟩
          cases skipped with
          | nil =>
            rw [List.nil_append] at heq
            injection heq with h1 h2
            exact absurd (by rw [h1]; exact ha) hy
          | cons c cs =>
            rw [List.cons_append] at heq
            injection heq with h1 h2
            have hd := hskip c (List.mem_cons_self c cs)
            rw [← h1] at hd
            exact absurd hn (isDecisive_false x hd).2
      · have hdx : isDecisive x = false := by simp [isDecisive, hy, hn]
        have hmap : proceed_with_booking (x :: xs) =
            (proceed_with_booking xs).map ConfirmOutcome.bump := by
          rw [proceed_with_booking_cons, if_neg hy, if_neg hn]
        constructor
        · rintro ⟨n, h⟩
          rw [hmap] at h
          cases ho : proceed_with_booking xs with
          | none =>
            rw [ho] at h
            exact absurd h (by simp)
          | some o =>
            rw [ho] at h
            cases o with
            | booked m =>
              obtain ⟨skipped, a, rest, heq, hskip, ha⟩ := ih.mp ⟨m, ho⟩
              refine ⟨x :: skipped, a, rest, by rw [heq, List.cons_append], ?_, ha⟩
              intro b hb
              rcases List.mem_cons.mp hb with rfl | hb2
              · exact hdx
              · exact hskip b hb2
            | declined m => exact absurd h (by simp [ConfirmOutcome.bump])
        · rintro ⟨skipped, a, rest, heq, hskip, ha⟩
          cases skipped with
          | nil =>
            rw [List.nil_append] at heq
            injection heq with h1 h2
            exact absurd (by rw [h1]; exact ha) hy
          | cons c cs =>
            rw [List.cons_append] at heq
            injection heq with h1 h2
            obtain ⟨n, hrec⟩ := ih.mpr
              ⟨cs, a, rest, h2, fun b hb => hskip b (List.mem_cons_of_mem c hb), ha⟩
            exact ⟨n + 1, by rw [hmap, hrec]; rfl⟩

/-- The loop terminates on no script exactly when no scripted answer is
decisive: with only indecisive answers it keeps prompting without bound. -/
theorem proceed_none_iff (answers : List String) :
    proceed_with_booking answers = none ↔ ∀ b ∈ answers, isDecisive b = false := by
  induction answers with
  | nil => simp [proceed_with_booking]
  | cons x xs ih =>
    by_cases hy : lowerStr x = "y"
    · rw [proceed_with_booking_cons, if_pos hy]
      constructor
      · intro h
        exact absurd h (by simp)
      · intro h
        exact absurd hy (isDecisive_false x (h x (List.mem_cons_self x xs))).1
    · by_cases hn : lowerStr x = "n"
      · rw [proceed_with_booking_cons, if_neg hy, if_pos hn]
        constructor
        · intro h
          exact absurd h (by simp)
        · intro h
          exact absurd hn (isDecisive_false x (h x (List.mem_cons_self x xs))).2
      · have hdx : isDecisive x = false := by simp [isDecisive, hy, hn]
        rw [proceed_with_booking_cons, if_neg hy, if_neg hn, Option.map_eq_none', ih]
        constructor
        · intro h b hb
          rcases List.mem_cons.mp hb with rfl | hb2
          · exact hdx
          · exact h b hb2
        · intro h b hb
          exact h b (List.mem_cons_of_mem x hb)

/-- C8: the loop books (calls `book_flight`) exactly when the first
decisive answer, compared case-insensitively, is `y`; an `n` first answer
reports the non-booking outcome after one prompt and ends without booking;
any indecisive answer re-prompts, incrementing the prompt count with no
bound; and the loop never terminates — and never books — when no decisive
answer arrives. -/
theorem proceed_with_booking_protocol (answers : List String) :
    ((∃ n, proceed_with_booking answers = some (.booked n)) ↔
      ∃ skipped a rest, answers = skipped ++ a :: rest ∧
        (∀ b ∈ skipped, isDecisive b = false) ∧ lowerStr a = "y") ∧
    (∀ a rest, answers = a :: rest → lowerStr a = "n" →
      proceed_with_booking answers = some (.declined 1)) ∧
    (∀ a rest, answers = a :: rest → isDecisive a = false →
      proceed_with_booking answers = (proceed_with_booking rest).map ConfirmOutcome.bump) ∧
    (proceed_with_booking answers = none ↔ ∀ b ∈ answers, isDecisive b = false) := by
  refine ⟨proceed_booked_iff answers, ?_, ?_, proceed_none_iff answers⟩
  · rintro a rest rfl hn
    have hny : ¬lowerStr a = "y" := by
      intro hc
      rw [hn] at hc
      exact absurd hc (by decide)
    rw [proceed_with_booking_cons, if_neg hny, if_pos hn]
  · rintro a rest rfl hd
    obtain ⟨h1, h2⟩ := isDecisive_false a hd
    rw [proceed_with_booking_cons, if_neg h1, if_neg h2]

/-- C8 witness: an indecisive answer followed by an uppercase `Y` books
after two prompts. -/
theorem proceed_with_booking_protocol_witness :
    ∃ n, proceed_with_booking ["maybe", "Y"] = some (.booked n) :=
  (proceed_with_booking_protocol ["maybe", "Y"]).1.mpr
    ⟨["maybe"], "Y", [], rfl, by decide, by decide⟩

/-- C9 counterexample: a booking response with the 2xx status 202 passes
`raise_for_status` but fails the `in (200, 201)` test, so `book_flight`
ends silently with exit code 0 and never prints the booking identifier it
carries. -/
theorem book_flight_202_silent :
    book_flight_run cfgOneWay (.ok (202, .withId "abc123")) = .done (bagsLines cfgOneWay) ∧
    bookedMsg "abc123" ∉ (book_flight_run cfgOneWay (.ok (202, .withId "abc123"))).out ∧
    (book_flight_run cfgOneWay (.ok (202, .withId "abc123"))).exitCode = some 0 := by
  refine ⟨rfl, ?_, rfl⟩
  decide

/-- C9 amended: for a booking call completing with status 200 or 201 (not
every 2xx status) `book_flight` parses the body and prints the booking
identifier; a 201 response carrying `booking_id` leads to output including
that identifier with exit code 0; and absence of the identifier field in
the parsed body is unguarded (an uncaught exception). -/
theorem book_flight_success_prints_id (cfg : Args) (s : Nat) (id : String) (f : Flight)
    (hs : s = 200 ∨ s = 201) :
    book_flight_run cfg (.ok (s, .withId id)) = .done (bagsLines cfg ++ [bookedMsg id]) ∧
    bookedMsg id = bookedMsgHead ++ id ∧
    (book_flight_run cfg (.ok (s, .withId id))).exitCode = some 0 ∧
    book_flight_run cfg (.ok (s, .noId)) = .crash (bagsLines cfg) ∧
    (handle_booking_run cfg (.ok (200, .withData [f])) ["y"]
        (.ok (s, .withId id))).exitCode = some 0 ∧
    bookedMsg id ∈ (handle_booking_run cfg (.ok (200, .withData [f])) ["y"]
        (.ok (s, .withId id))).out := by
  have hbook : book_flight_run cfg (.ok (s, .withId id)) =
      .done (bagsLines cfg ++ [bookedMsg id]) := by
    rcases hs with rfl | rfl <;> rfl
  have hnoid : book_flight_run cfg (.ok (s, .noId)) = .crash (bagsLines cfg) := by
    rcases hs with rfl | rfl <;> rfl
  obtain ⟨r, hsel, heq⟩ := handle_booking_run_nonempty cfg f [] ["y"] (.ok (s, .withId id))
  have hloop : proceed_loop cfg (.ok (s, .withId id)) ["y"] =
      book_flight_run cfg (.ok (s, .withId id)) := by
    rw [proceed_loop_cons, if_pos (by decide : lowerStr "y" = "y")]
  refine ⟨hbook, rfl, by rw [hbook]; rfl, hnoid, ?_, ?_⟩
  · rw [heq, withOut_exitCode, hloop, hbook]
    rfl
  · rw [heq, withOut_out, hloop, hbook]
    simp [RunOutcome.out]

/-- C9 witness: scenario E — confirmation `y`, HTTP 201 with booking id
`abc123` — prints the identifier with exit code 0. -/
theorem book_flight_success_prints_id_witness :
    book_flight_run cfgOneWay (.ok (201, .withId "abc123")) =
      .done (bagsLines cfgOneWay ++ [bookedMsg "abc123"]) ∧
    bookedMsg "abc123" ∈ (handle_booking_run cfgOneWay (.ok (200, .withData [flightA]))
      ["y"] (.ok (201, .withId "abc123"))).out :=
  ⟨(book_flight_success_prints_id cfgOneWay 201 "abc123" flightA (Or.inr rfl)).1,
    (book_flight_success_prints_id cfgOneWay 201 "abc123" flightA (Or.inr rfl)).2.2.2.2.2⟩

/-- C10: a search response completing with a 2xx status other than 200
makes `get_flights` fall through to `return None`, and `handle_booking`
treats that exactly like an empty candidate list: it prints the no-flights
message, never calls `search_flight` and never attempts booking. -/
theorem get_flights_non200_2xx (s : Nat) (h2xx : 200 ≤ s ∧ s < 300) (hne : s ≠ 200) :
    (∀ body, get_flights_step (.ok (s, body)) = .ok none) ∧
    (∀ body, get_flights s body = .ok none) ∧
    handle_booking_route true none = .noFlights ∧
    handle_booking_route false none = .noFlights ∧
    (∀ cfg answers bookResp body,
      handle_booking_run cfg (.ok (s, body)) answers bookResp =
        .done [search_message cfg, noFlightsMsg]) := by
  have h4 : ¬(400 ≤ s ∧ s < 600) := by omega
  refine ⟨?_, ?_, rfl, rfl, ?_⟩
  · intro body
    rw [get_flights_step_ok, if_neg h4, if_neg hne]
  · intro body
    unfold get_flights
    rw [if_neg h4, if_neg hne]
  · intro cfg answers bookResp body
    have hstep : get_flights_step (.ok (s, body)) = .ok none := by
      rw [get_flights_step_ok, if_neg h4, if_neg hne]
    unfold handle_booking_run
    rw [hstep]

/-- C10 witness: a 204 search response with flight records in the body
still yields `None` and the no-flights path. -/
theorem get_flights_non200_2xx_witness :
    get_flights_step (.ok (204, .withData [flightA])) = .ok none ∧
    handle_booking_run cfgOneWay (.ok (204, .withData [flightA])) []
      (.ok (201, .withId "x")) = .done [search_message cfgOneWay, noFlightsMsg] :=
  ⟨(get_flights_non200_2xx 204 (by decide) (by decide)).1 (.withData [flightA]),
    (get_flights_non200_2xx 204 (by decide) (by decide)).2.2.2.2 cfgOneWay []
      (.ok (201, .withId "x")) (.withData [flightA])⟩

end FlightBooking
